import Mathlib

/-!
# Verification of the `DatePicker` controller
(`crates/ui/src/time/date_picker.rs` of `stormasm/gpui-component-ui`)

A shallow embedding of the date-picker widget: its value model (`Date`),
the slice of the `Calendar` sub-widget contract it consumes, the window
focus state it manipulates, and every public operation of the controller.
Stateful Rust methods become pure functions from the pre-state to an
`OpResult` (post-state, post-window, emitted events, propagation flag).
-/

namespace DatePickerSpec

/-- `chrono::NaiveDate`: a plain year/month/day value with no time-of-day
component. Only construction and equality are consumed by the picker. -/
structure NaiveDate where
  year : Int
  month : Nat
  day : Nat
deriving DecidableEq, Repr

/-- Modelled from the spec: the `Date` value model lives in the calendar
module (`crates/ui/src/time/calendar.rs`), which is not part of the excerpt;
§3 DataModel: `Single(optional CalendarDate) | Range(optional start, optional
end)`. The variants and their use are also directly evidenced by the
`date_picker.rs` code (`Date::Single(None)`, `Date::Range(Some(start),
Some(end))`, ...). -/
inductive Date where
  | Single : Option NaiveDate → Date
  | Range : Option NaiveDate → Option NaiveDate → Date
deriving DecidableEq, Repr

/-- Modelled from the spec: `isSet()` ("true if any inner date is present",
§3); the code calls it as `self.date.is_some()` in `render`. -/
def Date.is_some : Date → Bool
  | Date.Single d => d.isSome
  | Date.Range s e => s.isSome || e.isSome

/-- `DatePickerEvent` (`date_picker.rs`): the one external notification. -/
inductive DatePickerEvent where
  | Change : Date → DatePickerEvent
deriving DecidableEq, Repr

/-- `DateRangePresetValue` (`date_picker.rs`). -/
inductive DateRangePresetValue where
  | Single : NaiveDate → DateRangePresetValue
  | Range : NaiveDate → NaiveDate → DateRangePresetValue
deriving DecidableEq, Repr

/-- `DateRangePreset` (`date_picker.rs`): an immutable label/value pair. -/
structure DateRangePreset where
  label : String
  value : DateRangePresetValue
deriving DecidableEq, Repr

/-- `DateRangePreset::single` (`date_picker.rs`). -/
def DateRangePreset.single (label : String) (s : NaiveDate) : DateRangePreset :=
  { label := label, value := DateRangePresetValue.Single s }

/-- `DateRangePreset.range` (`date_picker.rs`). -/
def DateRangePreset.range (label : String) (s e : NaiveDate) : DateRangePreset :=
  { label := label, value := DateRangePresetValue.Range s e }

/-- Modelled from the spec: the glossary's `Matcher` — "a predicate over
calendar dates identifying which dates are disabled for selection"; its
concrete type lives in the missing calendar module. -/
def Matcher : Type := NaiveDate → Bool

/-- Modelled from the spec: the size token of §3/§6 ("size token", default
"a standard token"); the concrete `Size` enum is outside the excerpt. -/
inductive Size where
  | xsmall
  | small
  | medium
  | large
deriving DecidableEq, Repr

instance : Inhabited Size := ⟨Size.medium⟩

/-- `gpui::Length` as consumed: `Auto` or a definite width (§6: width,
"default auto-size to content"). -/
inductive Length where
  | auto
  | definite : Nat → Length
deriving DecidableEq, Repr

/-- A focus handle of the external focus registry (§9: capabilities
`acquire`, `contains`, `restore`). A handle is identified with its path in
the focus tree, so subtree containment is path-prefix order. -/
structure FocusHandle where
  path : List Nat
deriving DecidableEq, Repr

/-- The slice of the window consumed: which focus handle (if any) currently
holds focus (`window.focused(cx)`). -/
structure Window where
  focused : Option FocusHandle
deriving DecidableEq, Repr

/-- Ancestor-or-equal order on focus-tree paths: `pathWithin a b` iff the
node at path `a` is the node at path `b` or one of its ancestors. -/
def pathWithin : List Nat → List Nat → Bool
  | [], _ => true
  | _ :: _, [] => false
  | a :: as, b :: bs => a == b && pathWithin as bs

/-- `FocusHandle::contains(&self, other, window)` of the external focus
registry: whether `other` lies within `self`'s focus subtree (is `self`
itself or a descendant of it) in the rendered tree. -/
def FocusHandle.contains (self other : FocusHandle) (_w : Window) : Bool :=
  pathWithin self.path other.path

/-- `FocusHandle::focus(window)`: move window focus to this handle. -/
def FocusHandle.focus (self : FocusHandle) (w : Window) : Window :=
  { w with focused := some self }

/-- `CalendarEvent` — the one event of the calendar collaborator (§4.4). -/
inductive CalendarEvent where
  | Selected : Date → CalendarEvent
deriving DecidableEq, Repr

/-- Modelled from the spec: the state slice of the `Calendar` collaborator
the picker consumes (§4.4): displayed date plus the settings forwarded to
it (`set_disabled`, `set_size`, `set_number_of_months`). -/
structure Calendar where
  date : Date
  disabled : Option Matcher
  size : Size
  number_of_months : Nat

/-- Modelled from the spec: `Calendar::new` — the delegate is "initialized
to the controller's starting (empty) date" immediately after construction
(§3 Lifecycle), so the construction value itself is irrelevant. -/
def Calendar.new : Calendar :=
  { date := Date.Single none, disabled := none, size := default,
    number_of_months := 1 }

/-- `Calendar::set_date` as consumed (§4.4 `setDate(model)`). -/
def Calendar.set_date (c : Calendar) (d : Date) : Calendar :=
  { c with date := d }

/-- `Calendar::set_disabled` as consumed (§4.4 `setDisabled(matcher)`). -/
def Calendar.set_disabled (c : Calendar) (m : Matcher) : Calendar :=
  { c with disabled := some m }

/-- `Calendar::set_size` as consumed (§4.4 `setSize(size)`). -/
def Calendar.set_size (c : Calendar) (s : Size) : Calendar :=
  { c with size := s }

/-- `Calendar::set_number_of_months` as consumed (§4.4). -/
def Calendar.set_number_of_months (c : Calendar) (n : Nat) : Calendar :=
  { c with number_of_months := n }

/-- The `DatePicker` struct (`date_picker.rs`, lines 58–72). `ElementId`
is abstracted to `Nat`; the `_subscriptions` vector holds only opaque
subscription guards, and the subscription's behaviour is embedded as
`DatePicker.on_calendar_event` below. -/
structure DatePicker where
  id : Nat
  focus_handle : FocusHandle
  date : Date
  cleanable : Bool
  placeholder : Option String
  is_open : Bool
  size : Size
  width : Length
  date_format : String
  calendar : Calendar
  number_of_months : Nat
  presets : Option (List DateRangePreset)

/-- The result of one controller operation: the post-state, the post
window-focus state, the `DatePickerEvent`s emitted during it (in order),
and whether the handled action was re-propagated (`cx.propagate()`). -/
structure OpResult where
  picker : DatePicker
  window : Window
  events : List DatePickerEvent
  propagated : Bool

/-- `DatePicker::new_with_range` (`date_picker.rs`, lines 89–133): fixes
the mode, creates the calendar eagerly and initializes it to the starting
empty date, and fills every configuration field with its default. -/
def DatePicker.new_with_range (id : Nat) (is_range : Bool) (fh : FocusHandle) :
    DatePicker :=
  let date := if is_range then Date.Range none none else Date.Single none
  let calendar := Calendar.new.set_date date
  { id := id
    focus_handle := fh
    date := date
    calendar := calendar
    is_open := false
    size := default
    width := Length.auto
    date_format := "%Y/%m/%d"
    cleanable := false
    number_of_months := 1
    placeholder := none
    presets := none }

/-- `DatePicker::new` (`date_picker.rs`): single mode. -/
def DatePicker.new (id : Nat) (fh : FocusHandle) : DatePicker :=
  DatePicker.new_with_range id false fh

/-- `DatePicker::range_picker` (`date_picker.rs`): range mode. -/
def DatePicker.range_picker (id : Nat) (fh : FocusHandle) : DatePicker :=
  DatePicker.new_with_range id true fh

/-- Builder `DatePicker::date_format` (`date_picker.rs`). -/
def DatePicker.set_date_format (self : DatePicker) (format : String) : DatePicker :=
  { self with date_format := format }

/-- Builder `DatePicker::placeholder` (`date_picker.rs`). -/
def DatePicker.set_placeholder (self : DatePicker) (p : String) : DatePicker :=
  { self with placeholder := some p }

/-- Builder `DatePicker::cleanable` (`date_picker.rs`). -/
def DatePicker.set_cleanable (self : DatePicker) : DatePicker :=
  { self with cleanable := true }

/-- Builder `DatePicker::width` (`date_picker.rs`). -/
def DatePicker.set_width (self : DatePicker) (w : Length) : DatePicker :=
  { self with width := w }

/-- Builder `DatePicker::number_of_months` (`date_picker.rs`). -/
def DatePicker.set_number_of_months (self : DatePicker) (n : Nat) : DatePicker :=
  { self with number_of_months := n }

/-- Builder `DatePicker::presets` (`date_picker.rs`). -/
def DatePicker.set_presets (self : DatePicker) (ps : List DateRangePreset) : DatePicker :=
  { self with presets := some ps }

/-- `Sizable::with_size` for `DatePicker` (`date_picker.rs`, lines 274–279). -/
def DatePicker.with_size (self : DatePicker) (s : Size) : DatePicker :=
  { self with size := s }

/-- `DatePicker::update_date` (`date_picker.rs`, lines 181–191), the central
mutation routine, in source order: set the `date` field, push the new model
into the calendar, force `open := false`, emit `Change(date)` iff `emit`,
then `cx.notify()` (a redraw request, no observable state). -/
def DatePicker.update_date (self : DatePicker) (date : Date) (emit : Bool)
    (window : Window) : OpResult :=
  let self := { self with date := date }
  let self := { self with calendar := self.calendar.set_date date }
  let self := { self with is_open := false }
  let events := if emit then [DatePickerEvent.Change date] else []
  { picker := self, window := window, events := events, propagated := false }

/-- `DatePicker::set_date` (`date_picker.rs`, lines 177–179): the
programmatic setter, `update_date` with `emit = false`. -/
def DatePicker.set_date (self : DatePicker) (date : Date) (window : Window) :
    OpResult :=
  self.update_date date false window

/-- `DatePicker::set_disabled` (`date_picker.rs`, lines 194–203):
forwarded verbatim to the calendar. -/
def DatePicker.set_disabled (self : DatePicker) (m : Matcher) (window : Window) :
    OpResult :=
  { picker := { self with calendar := self.calendar.set_disabled m }
    window := window, events := [], propagated := false }

/-- `DatePicker::set_size` (`date_picker.rs`, lines 206–209). -/
def DatePicker.set_size (self : DatePicker) (s : Size) (window : Window) :
    OpResult :=
  { picker := { self with size := s }, window := window, events := [],
    propagated := false }

/-- `DatePicker::focus_back_if_need` (`date_picker.rs`, lines 228–238):
when the popover is open and the currently focused element `contains` the
picker's focus handle in its subtree, move focus back to the picker. -/
def DatePicker.focus_back_if_need (self : DatePicker) (window : Window) : Window :=
  if !self.is_open then window
  else
    match window.focused with
    | some focused =>
        if focused.contains self.focus_handle window then
          self.focus_handle.focus window
        else window
    | none => window

/-- `DatePicker::escape` (`date_picker.rs`, lines 211–220): if the popover
is closed the `Cancel` action is re-propagated; in every case
`focus_back_if_need` runs (a no-op while closed) and `open := false`. -/
def DatePicker.escape (self : DatePicker) (window : Window) : OpResult :=
  let propagated := !self.is_open
  let window := self.focus_back_if_need window
  let self := { self with is_open := false }
  { picker := self, window := window, events := [], propagated := propagated }

/-- The outside mouse-release handler of the overlay (`date_picker.rs`,
lines 368–373): it invokes `escape(&Cancel, ...)` verbatim. -/
def DatePicker.on_mouse_up_out (self : DatePicker) (window : Window) : OpResult :=
  self.escape window

/-- `DatePicker::clean` (`date_picker.rs`, lines 240–249): reset the
current variant to its fully empty form with `emit = true`. -/
def DatePicker.clean (self : DatePicker) (window : Window) : OpResult :=
  match self.date with
  | Date.Single _ => self.update_date (Date.Single none) true window
  | Date.Range _ _ => self.update_date (Date.Range none none) true window

/-- `DatePicker::toggle_calendar` (`date_picker.rs`, lines 251–254). -/
def DatePicker.toggle_calendar (self : DatePicker) (window : Window) : OpResult :=
  { picker := { self with is_open := !self.is_open }, window := window,
    events := [], propagated := false }

/-- `DatePicker::select_preset` (`date_picker.rs`, lines 256–270):
apply the preset's value through `update_date` with `emit = true`. -/
def DatePicker.select_preset (self : DatePicker) (preset : DateRangePreset)
    (window : Window) : OpResult :=
  match preset.value with
  | DateRangePresetValue.Single s =>
      self.update_date (Date.Single (some s)) true window
  | DateRangePresetValue.Range s e =>
      self.update_date (Date.Range (some s) (some e)) true window

/-- The calendar subscription registered in `new_with_range`
(`date_picker.rs`, lines 107–116): on `Selected(date)`, run
`update_date(date, true)` and then focus the picker's field. -/
def DatePicker.on_calendar_event (self : DatePicker) (ev : CalendarEvent)
    (window : Window) : OpResult :=
  match ev with
  | CalendarEvent.Selected date =>
      let r := self.update_date date true window
      { r with window := r.picker.focus_handle.focus r.window }

/-- The primitive actions performed, in source order, by the body of
`update_date` (`date_picker.rs`, lines 181–191): one step per statement. -/
inductive Step where
  | set_field : Date → Step
  | sync_calendar : Date → Step
  | close_popover : Step
  | emit_change : Date → Step
  | notify : Step
deriving DecidableEq, Repr

/-- The exact statement sequence of `update_date(date, emit)`:
`self.date = date`; `self.calendar.update(set_date(date))`;
`self.open = false`; `if emit { cx.emit(Change(date)) }`; `cx.notify()`. -/
def update_date_steps (date : Date) (emit : Bool) : List Step :=
  [Step.set_field date, Step.sync_calendar date, Step.close_popover] ++
    (if emit then [Step.emit_change date] else []) ++ [Step.notify]

/-- Effect of one primitive step on the controller state (emission and
redraw requests touch no controller field). -/
def apply_step (s : DatePicker) : Step → DatePicker
  | Step.set_field d => { s with date := d }
  | Step.sync_calendar d => { s with calendar := s.calendar.set_date d }
  | Step.close_popover => { s with is_open := false }
  | Step.emit_change _ => s
  | Step.notify => s

/-- Run a sequence of primitive steps from a controller state. -/
def run_steps (s : DatePicker) (steps : List Step) : DatePicker :=
  steps.foldl apply_step s

/-- The notifications a step sequence emits, in order. -/
def steps_events (steps : List Step) : List DatePickerEvent :=
  steps.filterMap fun st =>
    match st with
    | Step.emit_change d => some (DatePickerEvent.Change d)
    | _ => none

/-- Every operation of the controller reachable after construction, for
quantifying over the controller's whole operation surface. -/
inductive Op where
  | set_date : Date → Op
  | clean : Op
  | select_preset : DateRangePreset → Op
  | calendar_selected : Date → Op
  | escape : Op
  | mouse_up_out : Op
  | toggle_calendar : Op
  | set_size : Size → Op
  | set_disabled : Matcher → Op
  | set_date_format : String → Op
  | set_placeholder : String → Op
  | set_cleanable : Op
  | set_width : Length → Op
  | set_number_of_months : Nat → Op
  | set_presets : List DateRangePreset → Op
  | with_size : Size → Op

/-- Dispatch one operation against a controller state. Builder-style
configuration setters mutate no window state and emit nothing. -/
def apply_op (p : DatePicker) (w : Window) : Op → OpResult
  | Op.set_date d => p.set_date d w
  | Op.clean => p.clean w
  | Op.select_preset pr => p.select_preset pr w
  | Op.calendar_selected d => p.on_calendar_event (CalendarEvent.Selected d) w
  | Op.escape => p.escape w
  | Op.mouse_up_out => p.on_mouse_up_out w
  | Op.toggle_calendar => p.toggle_calendar w
  | Op.set_size s => p.set_size s w
  | Op.set_disabled m => p.set_disabled m w
  | Op.set_date_format f =>
      { picker := p.set_date_format f, window := w, events := [], propagated := false }
  | Op.set_placeholder s =>
      { picker := p.set_placeholder s, window := w, events := [], propagated := false }
  | Op.set_cleanable =>
      { picker := p.set_cleanable, window := w, events := [], propagated := false }
  | Op.set_width l =>
      { picker := p.set_width l, window := w, events := [], propagated := false }
  | Op.set_number_of_months n =>
      { picker := p.set_number_of_months n, window := w, events := [], propagated := false }
  | Op.set_presets ps =>
      { picker := p.set_presets ps, window := w, events := [], propagated := false }
  | Op.with_size s =>
      { picker := p.with_size s, window := w, events := [], propagated := false }

/-- Run a sequence of `set_date` calls, threading state and concatenating
the emitted notifications. -/
def run_set_dates (p : DatePicker) (w : Window) :
    List Date → DatePicker × Window × List DatePickerEvent
  | [] => (p, w, [])
  | d :: ds =>
      let r := p.set_date d w
      let rest := run_set_dates r.picker r.window ds
      (rest.1, rest.2.1, r.events ++ rest.2.2)

/-! Concrete sample states used by scenario theorems and witnesses. -/

/-- A sample field focus handle. -/
def fh0 : FocusHandle := ⟨[7, 0]⟩

/-- A sample window with nothing focused. -/
def w0 : Window := ⟨none⟩

/-- 2024-03-05. -/
def d20240305 : NaiveDate := ⟨2024, 3, 5⟩

/-- 2024-01-01. -/
def jan1_2024 : NaiveDate := ⟨2024, 1, 1⟩

/-- 2024-01-07. -/
def jan7_2024 : NaiveDate := ⟨2024, 1, 7⟩

/-- The "Last 7 days" preset of the spec's Scenario A. -/
def last7 : DateRangePreset := DateRangePreset.range "Last 7 days" jan1_2024 jan7_2024

/-- A freshly constructed single-mode picker. -/
def p0 : DatePicker := DatePicker.new 0 fh0

/-- A single-mode picker holding `Single (some 2024-03-05)`. -/
def pS : DatePicker := { DatePicker.new 1 fh0 with date := Date.Single (some d20240305) }

/-- A range-mode picker holding `Range (some 2024-01-01) (some 2024-01-07)`. -/
def pR : DatePicker :=
  { DatePicker.range_picker 2 fh0 with
      date := Date.Range (some jan1_2024) (some jan7_2024) }

/-- An open picker whose field handle sits below the tree root. -/
def pC4 : DatePicker := { DatePicker.new 4 ⟨[0]⟩ with is_open := true }

/-- A window whose focus rests on the tree root — a strict ancestor of
`pC4`'s field handle, hence not inside the field's subtree. -/
def wC4 : Window := ⟨some ⟨[]⟩⟩

/-- An open single-mode picker. -/
def pOpen : DatePicker := { DatePicker.new 5 fh0 with is_open := true }

/-- C1: after the controller processes a `CalendarDelegate Selected(d)`
event, `date()` equals `d`, the popover is closed, the calendar delegate's
displayed date is `d`, and exactly one `Change(d)` notification was emitted
during the processing. -/
theorem calendar_selected_processed (p : DatePicker) (w : Window) (d : Date) :
    (p.on_calendar_event (CalendarEvent.Selected d) w).picker.date = d ∧
    (p.on_calendar_event (CalendarEvent.Selected d) w).picker.is_open = false ∧
    (p.on_calendar_event (CalendarEvent.Selected d) w).picker.calendar.date = d ∧
    (p.on_calendar_event (CalendarEvent.Selected d) w).events
      = [DatePickerEvent.Change d] := by
  simp [DatePicker.on_calendar_event, DatePicker.update_date, Calendar.set_date]

/-- C2: a `Change` notification is emitted exactly on the user-driven
change paths and never by the programmatic setter: any sequence of
`set_date` calls emits nothing, while `clean`, `select_preset`, and the
calendar-selection handler each emit exactly one notification. -/
theorem change_emission_paths (p : DatePicker) (w : Window) (ds : List Date)
    (d : Date) (preset : DateRangePreset) :
    (run_set_dates p w ds).2.2 = [] ∧
    (p.clean w).events.length = 1 ∧
    (p.select_preset preset w).events.length = 1 ∧
    (p.on_calendar_event (CalendarEvent.Selected d) w).events.length = 1 := by
  refine ⟨?_, ?_, ?_, ?_⟩
  · induction ds generalizing p w with
    | nil => rfl
    | cons x xs ih =>
        simp [run_set_dates, DatePicker.set_date, DatePicker.update_date, ih]
  · cases h : p.date <;> simp [DatePicker.clean, h, DatePicker.update_date]
  · cases h : preset.value <;>
      simp [DatePicker.select_preset, h, DatePicker.update_date]
  · simp [DatePicker.on_calendar_event, DatePicker.update_date]

/-- C3: invariant over every operation of the controller: whenever an
operation changed the date, the resulting `open` flag is `false`; in
particular every committing path (`set_date`, `clean`, `select_preset`,
calendar selection) leaves the popover closed unconditionally. -/
theorem committed_change_closes (p : DatePicker) (w : Window) :
    (∀ op : Op, (apply_op p w op).picker.date ≠ p.date →
      (apply_op p w op).picker.is_open = false) ∧
    (∀ d, (p.set_date d w).picker.is_open = false) ∧
    (p.clean w).picker.is_open = false ∧
    (∀ pr, (p.select_preset pr w).picker.is_open = false) ∧
    (∀ d, (p.on_calendar_event (CalendarEvent.Selected d) w).picker.is_open
      = false) := by
  refine ⟨?_, ?_, ?_, ?_, ?_⟩
  · intro op h
    cases op with
    | clean =>
        cases hd : p.date <;>
          simp [apply_op, DatePicker.clean, hd, DatePicker.update_date]
    | select_preset pr =>
        cases hpr : pr.value <;>
          simp [apply_op, DatePicker.select_preset, hpr, DatePicker.update_date]
    | _ =>
        simp [apply_op, DatePicker.set_date, DatePicker.update_date,
          DatePicker.on_calendar_event, DatePicker.escape,
          DatePicker.on_mouse_up_out, DatePicker.toggle_calendar,
          DatePicker.set_size, DatePicker.set_disabled,
          DatePicker.set_date_format, DatePicker.set_placeholder,
          DatePicker.set_cleanable, DatePicker.set_width,
          DatePicker.set_number_of_months, DatePicker.set_presets,
          DatePicker.with_size] at h ⊢
  · intro d; simp [DatePicker.set_date, DatePicker.update_date]
  · cases hd : p.date <;> simp [DatePicker.clean, hd, DatePicker.update_date]
  · intro pr
    cases hpr : pr.value <;>
      simp [DatePicker.select_preset, hpr, DatePicker.update_date]
  · intro d; simp [DatePicker.on_calendar_event, DatePicker.update_date]

/-- Witness for `committed_change_closes`: a fresh picker whose date a
`set_date` call actually changes ends up with the popover closed. -/
theorem committed_change_closes_witness :
    (apply_op p0 w0 (Op.set_date (Date.Single (some d20240305)))).picker.date
        ≠ p0.date ∧
    (apply_op p0 w0 (Op.set_date (Date.Single (some d20240305)))).picker.is_open
        = false :=
  ⟨by decide,
   (committed_change_closes p0 w0).1
     (Op.set_date (Date.Single (some d20240305))) (by decide)⟩

/-- C6: `clean()` on `Single (some x)` yields `Single none` and emits
`Change (Single none)`; `clean()` on `Range (some a) (some b)` yields
`Range none none` and emits `Change (Range none none)`. -/
theorem clean_resets_variant (p : DatePicker) (w : Window) (x a b : NaiveDate) :
    (p.date = Date.Single (some x) →
      (p.clean w).picker.date = Date.Single none ∧
      (p.clean w).events = [DatePickerEvent.Change (Date.Single none)]) ∧
    (p.date = Date.Range (some a) (some b) →
      (p.clean w).picker.date = Date.Range none none ∧
      (p.clean w).events = [DatePickerEvent.Change (Date.Range none none)]) := by
  constructor <;> intro h <;> simp [DatePicker.clean, h, DatePicker.update_date]

/-- Witness for `clean_resets_variant` at concrete single- and range-valued
pickers. -/
theorem clean_resets_variant_witness :
    ((pS.clean w0).picker.date = Date.Single none ∧
      (pS.clean w0).events = [DatePickerEvent.Change (Date.Single none)]) ∧
    ((pR.clean w0).picker.date = Date.Range none none ∧
      (pR.clean w0).events = [DatePickerEvent.Change (Date.Range none none)]) :=
  ⟨(clean_resets_variant pS w0 d20240305 jan1_2024 jan7_2024).1 (by decide),
   (clean_resets_variant pR w0 d20240305 jan1_2024 jan7_2024).2 (by decide)⟩

/-- C7: `escape()` while the popover is open closes it, leaves `date()`
unchanged, and emits no notification. -/
theorem escape_while_open (p : DatePicker) (w : Window)
    (_h : p.is_open = true) :
    (p.escape w).picker.is_open = false ∧
    (p.escape w).picker.date = p.date ∧
    (p.escape w).events = [] := by
  simp [DatePicker.escape]

/-- Witness for `escape_while_open` at a concrete open picker. -/
theorem escape_while_open_witness :
    (pOpen.escape w0).picker.is_open = false ∧
    (pOpen.escape w0).picker.date = pOpen.date ∧
    (pOpen.escape w0).events = [] :=
  escape_while_open pOpen w0 (by decide)

/-- C8: `escape()` while the popover is closed leaves every field of the
controller unchanged, leaves window focus unchanged, emits nothing, and
re-propagates the cancel action to the enclosing scope. -/
theorem escape_while_closed (p : DatePicker) (w : Window)
    (h : p.is_open = false) :
    (p.escape w).picker = p ∧
    (p.escape w).window = w ∧
    (p.escape w).events = [] ∧
    (p.escape w).propagated = true := by
  rcases p with ⟨id, fh, date, cl, ph, op, sz, wd, df, cal, nm, ps⟩
  simp only [DatePicker.is_open] at h
  subst h
  simp [DatePicker.escape, DatePicker.focus_back_if_need]

/-- Witness for `escape_while_closed` at a freshly constructed (closed)
picker. -/
theorem escape_while_closed_witness :
    (p0.escape w0).picker = p0 ∧
    (p0.escape w0).window = w0 ∧
    (p0.escape w0).events = [] ∧
    (p0.escape w0).propagated = true :=
  escape_while_closed p0 w0 (by decide)

/-- C9 (Scenario A): a range-mode controller with the "Last 7 days" preset
`Range(2024-01-01, 2024-01-07)`; `select_preset` on it yields
`date() = Range (some 2024-01-01) (some 2024-01-07)`, a closed popover, and
exactly one `Change` notification with that value. -/
theorem scenario_preset_range :
    ((DatePicker.range_picker 1 fh0).set_presets [last7]).presets
        = some [last7] ∧
    (((DatePicker.range_picker 1 fh0).set_presets [last7]).select_preset
        last7 w0).picker.date
        = Date.Range (some jan1_2024) (some jan7_2024) ∧
    (((DatePicker.range_picker 1 fh0).set_presets [last7]).select_preset
        last7 w0).picker.is_open = false ∧
    (((DatePicker.range_picker 1 fh0).set_presets [last7]).select_preset
        last7 w0).events
        = [DatePickerEvent.Change
            (Date.Range (some jan1_2024) (some jan7_2024))] := by
  decide

/-- C10: the single/range mode fixed at construction is not enforced
afterwards: `set_date` stores any model of either variant verbatim, and a
`Single`-valued preset on a range-mode controller (or a `Range`-valued
preset on a single-mode controller) switches the stored variant. -/
theorem mode_not_enforced (p : DatePicker) (w : Window) (m : Date)
    (id : Nat) (fh : FocusHandle) (label : String) (s a b : NaiveDate) :
    (p.set_date m w).picker.date = m ∧
    (DatePicker.range_picker id fh).date = Date.Range none none ∧
    ((DatePicker.range_picker id fh).select_preset
        (DateRangePreset.single label s) w).picker.date
        = Date.Single (some s) ∧
    (DatePicker.new id fh).date = Date.Single none ∧
    ((DatePicker.new id fh).select_preset
        (DateRangePreset.range label a b) w).picker.date
        = Date.Range (some a) (some b) := by
  refine ⟨?_, rfl, ?_, rfl, ?_⟩ <;>
    simp [DatePicker.set_date, DatePicker.update_date, DatePicker.select_preset,
      DateRangePreset.single, DateRangePreset.range]

/-- C5: in `update_date(date, emit)` the statements occur in source order —
field update, calendar synchronization, closing the popover, and only then
the conditional emission; the step trace agrees with `update_date`'s
post-state and events, and at the instant any `Change` emission happens the
controller already has `open = false` (with the new date stored and the
calendar synchronized). -/
theorem update_date_ordering (s : DatePicker) (w : Window) (d : Date)
    (e : Bool) :
    (update_date_steps d e).take 3
      = [Step.set_field d, Step.sync_calendar d, Step.close_popover] ∧
    run_steps s (update_date_steps d e) = (s.update_date d e w).picker ∧
    steps_events (update_date_steps d e) = (s.update_date d e w).events ∧
    (∀ i d', (update_date_steps d e)[i]? = some (Step.emit_change d') →
      2 < i ∧ d' = d ∧
      (run_steps s ((update_date_steps d e).take i)).is_open = false ∧
      (run_steps s ((update_date_steps d e).take i)).date = d ∧
      (run_steps s ((update_date_steps d e).take i)).calendar.date = d) := by
  cases e <;>
  · refine ⟨rfl, rfl, rfl, ?_⟩
    intro i d' h
    rcases i with _ | _ | _ | _ | _ | i <;>
      simp_all [update_date_steps, run_steps, apply_step,
        Calendar.set_date]

/-- Witness for `update_date_ordering`: with `emit = true` the emission
step sits at index 3, after the close at index 2, and the state observed
there is already closed and synchronized. -/
theorem update_date_ordering_witness :
    2 < 3 ∧
    Date.Single (some d20240305) = Date.Single (some d20240305) ∧
    (run_steps p0
        ((update_date_steps (Date.Single (some d20240305)) true).take 3)).is_open
        = false ∧
    (run_steps p0
        ((update_date_steps (Date.Single (some d20240305)) true).take 3)).date
        = Date.Single (some d20240305) ∧
    (run_steps p0
        ((update_date_steps
          (Date.Single (some d20240305)) true).take 3)).calendar.date
        = Date.Single (some d20240305) :=
  (update_date_ordering p0 w0 (Date.Single (some d20240305)) true).2.2.2 3
    (Date.Single (some d20240305)) (by decide)

/-- C4 counterexample: closing via `escape` while focus rests on the focus
tree's root — a strict ancestor of the field, hence *not* inside the
field's own focus subtree — does move focus to the field, contradicting
"focus is restored only if the currently focused element lies within the
field's own focus subtree". -/
theorem focus_restore_direction_counterexample :
    pC4.is_open = true ∧
    wC4.focused = some ⟨[]⟩ ∧
    pC4.focus_handle.contains ⟨[]⟩ wC4 = false ∧
    (pC4.escape wC4).window.focused = some pC4.focus_handle ∧
    (pC4.escape wC4).window.focused ≠ wC4.focused := by
  decide

/-- C4 amended: when the popover is being closed while open (escape and
the outside mouse-release handler run the same code), focus is restored to
the field exactly when the currently focused element *contains* the field
in its own subtree (it is the field itself or one of its ancestors);
otherwise — in particular when focus rests on an unrelated focusable
element elsewhere — focus is left untouched. -/
theorem focus_restore_amended (p : DatePicker) (w : Window) (f : FocusHandle)
    (hopen : p.is_open = true) :
    (p.escape w).picker.is_open = false ∧
    p.on_mouse_up_out w = p.escape w ∧
    (w.focused = some f → f.contains p.focus_handle w = true →
      (p.escape w).window.focused = some p.focus_handle) ∧
    (w.focused = some f → f.contains p.focus_handle w = false →
      (p.escape w).window = w) ∧
    (w.focused = none → (p.escape w).window = w) := by
  refine ⟨by simp [DatePicker.escape], rfl, ?_, ?_, ?_⟩
  · intro hf hc
    simp [DatePicker.escape, DatePicker.focus_back_if_need, hopen, hf, hc,
      FocusHandle.focus]
  · intro hf hc
    simp [DatePicker.escape, DatePicker.focus_back_if_need, hopen, hf, hc]
  · intro hf
    simp [DatePicker.escape, DatePicker.focus_back_if_need, hopen, hf]

/-- Witness for `focus_restore_amended`: focus on the tree root (an
ancestor containing the field) is pulled back to the field on close. -/
theorem focus_restore_amended_witness :
    (pC4.escape wC4).picker.is_open = false ∧
    (pC4.escape wC4).window.focused = some pC4.focus_handle :=
  ⟨(focus_restore_amended pC4 wC4 ⟨[]⟩ (by decide)).1,
   (focus_restore_amended pC4 wC4 ⟨[]⟩ (by decide)).2.2.1 (by decide)
     (by decide)⟩

end DatePickerSpec
